import Mathlib

/-!
Verification of the completeness checker in `pipeline/check_status.py`.

The checker scans a fixed on-disk layout and classifies each expected file of
each registered CI/CD platform as `exists` / `empty` / `missing`, then
aggregates counts and a completion percentage.

Shallow embedding: the filesystem is a function from absolute path strings to
a stat outcome (a node with a regular-file flag and byte size, not found, or a
permission error).  Python's `pathlib.Path.exists()` swallows `OSError`
(including `PermissionError`) and returns `False`; `Path.stat()` raises on a
path that cannot be stat'ed.  Fallible operations return `Except String`,
where the error string names the Python exception that would be raised.
-/

/-- Outcome of stating a path: a filesystem object (with a flag telling
whether it is a regular file, and its `st_size` in bytes), no object at the
path, or a permission error while stating. -/
inductive FsOutcome where
  | ok (isFile : Bool) (size : Nat)
  | notFound
  | permError
deriving DecidableEq, Repr

/-- A filesystem snapshot: every absolute path string has a stat outcome. -/
def FS : Type := String → FsOutcome

/-- Python `pathlib.Path.exists()`: true when the path stats successfully
(file or directory alike); any `OSError`, including a permission error,
yields `False`. -/
def pythonExists (fs : FS) (p : String) : Bool :=
  match fs p with
  | .ok _ _ => true
  | .notFound => false
  | .permError => false

/-- Python `Path.stat().st_size`: the byte size on success, an exception
(modelled as `Except.error` naming the exception) otherwise. -/
def pythonStatSize (fs : FS) (p : String) : Except String Nat :=
  match fs p with
  | .ok _ sz => .ok sz
  | .notFound => .error "FileNotFoundError"
  | .permError => .error "PermissionError"

/-- The per-path classification of `check_platform_structure`
(check_status.py lines 153-159): `if full_path.exists():` then
`"exists" if size > 0 else "empty"`, else `"missing"`. -/
def classifyFile (fs : FS) (p : String) : Except String String :=
  if pythonExists fs p then do
    let sz ← pythonStatSize fs p
    pure (if sz > 0 then "exists" else "empty")
  else
    pure "missing"

/-- The hardcoded `expected_files` list of `check_platform_structure`
(check_status.py lines 139-151), in source order. -/
def expected_files : List String :=
  [ "README.md",
    "templates/basic.yml",
    "templates/advanced.yml",
    "examples/java-spring-boot-example.md",
    "examples/python-fastapi-example.md",
    "examples/nodejs-express-example.md",
    "examples/go-example.md",
    "docs/getting-started.md",
    "docs/advanced-configuration.md",
    "scripts/setup.sh",
    "scripts/validate.sh" ]

/-- The hardcoded platform directory
`Path(f"/workspaces/AI-prompt/pipeline/{platform_key}")`
(check_status.py line 131). -/
def platformDir (platform_key : String) : String :=
  "/workspaces/AI-prompt/pipeline/" ++ platform_key

/-- The report built by `check_platform_structure`: the platform key, the
`directory_exists` boolean, and the `files` dict.  Python dicts preserve
insertion order, so the dict is modelled as an association list in insertion
order. -/
structure PlatformStatus where
  platform : String
  directory_exists : Bool
  files : List (String × String)
deriving DecidableEq, Repr

/-- The `for file_path in expected_files:` loop of `check_platform_structure`
(check_status.py lines 153-159), building the `files` dict entries in order. -/
def classifyAll (fs : FS) (dir : String) : List String → Except String (List (String × String))
  | [] => pure []
  | fp :: rest => do
      let s ← classifyFile fs (dir ++ "/" ++ fp)
      let tail ← classifyAll fs dir rest
      pure ((fp, s) :: tail)

/-- `check_platform_structure(platform_key)` (check_status.py lines 129-161).
It takes only the platform key: the root directory and the expected file list
are hardcoded.  An uncaught Python exception is an `Except.error`. -/
def check_platform_structure (fs : FS) (platform_key : String) :
    Except String PlatformStatus := do
  let dir := platformDir platform_key
  let files ← classifyAll fs dir expected_files
  pure { platform := platform_key,
         directory_exists := pythonExists fs dir,
         files := files }

/-- The status string determined by a stat outcome, abbreviating the branch
structure of lines 153-159: a successful stat yields `exists`/`empty` by
size, and both a missing path and a permission error (where `exists()`
returns `False`) yield `missing`. -/
def statusOf : FsOutcome → String
  | .ok _ sz => if sz > 0 then "exists" else "empty"
  | .notFound => "missing"
  | .permError => "missing"

/-- Pure form of `check_platform_structure`: the function never raises, and
its report maps each expected path, in order, to the status of the resolved
absolute path. -/
def checkPure (fs : FS) (platform_key : String) : PlatformStatus :=
  { platform := platform_key,
    directory_exists := pythonExists fs (platformDir platform_key),
    files := expected_files.map
      (fun fp => (fp, statusOf (fs (platformDir platform_key ++ "/" ++ fp)))) }

theorem classifyFile_eq (fs : FS) (p : String) :
    classifyFile fs p = .ok (statusOf (fs p)) := by
  unfold classifyFile pythonExists pythonStatSize statusOf
  cases fs p <;> simp [bind, Except.bind, pure, Except.pure]

theorem classifyAll_eq (fs : FS) (dir : String) (l : List String) :
    classifyAll fs dir l =
      .ok (l.map (fun fp => (fp, statusOf (fs (dir ++ "/" ++ fp))))) := by
  induction l with
  | nil => rfl
  | cons fp rest ih =>
      simp [classifyAll, classifyFile_eq, ih, bind, Except.bind, pure, Except.pure]

/-- The checker is total: it always returns `Except.ok` of the pure report. -/
theorem check_platform_structure_eq (fs : FS) (platform_key : String) :
    check_platform_structure fs platform_key = .ok (checkPure fs platform_key) := by
  unfold check_platform_structure checkPure
  simp [classifyAll_eq, bind, Except.bind, pure, Except.pure, platformDir]

/-- Metadata of one registry entry (check_status.py lines 12-127): display
name, type tag, format, and config file extension. -/
structure PlatformMeta where
  name : String
  type : String
  format : String
  config_extension : String
deriving DecidableEq, Repr

/-- The `PLATFORMS` registry (check_status.py lines 12-127), an ordered
mapping from platform key to metadata, in source (insertion) order. -/
def PLATFORMS : List (String × PlatformMeta) :=
  [ ("gitlab-ci", ⟨"GitLab CI/CD", "cloud_native", "yaml", ".yml"⟩),
    ("azure-pipelines", ⟨"Azure Pipelines", "cloud_native", "yaml", ".yml"⟩),
    ("aws-codepipeline", ⟨"AWS CodePipeline", "cloud_native", "yaml", ".yml"⟩),
    ("gcp-cloud-build", ⟨"GCP Cloud Build", "cloud_native", "yaml", ".yml"⟩),
    ("circleci", ⟨"CircleCI", "saas", "yaml", ".yml"⟩),
    ("travis-ci", ⟨"Travis CI", "saas", "yaml", ".yml"⟩),
    ("appveyor", ⟨"AppVeyor", "saas", "yaml", ".yml"⟩),
    ("bitbucket-pipelines", ⟨"Bitbucket Pipelines", "saas", "yaml", ".yml"⟩),
    ("buildkite", ⟨"Buildkite", "saas", "yaml", ".yml"⟩),
    ("drone-ci", ⟨"Drone CI", "saas", "yaml", ".yml"⟩),
    ("concourse-ci", ⟨"Concourse CI", "saas", "yaml", ".yml"⟩),
    ("jenkins", ⟨"Jenkins", "selfhosted", "groovy", ""⟩),
    ("teamcity", ⟨"TeamCity", "selfhosted", "kotlin", ""⟩),
    ("cloudbees", ⟨"CloudBees CI", "selfhosted", "groovy", ""⟩),
    ("gocd", ⟨"GoCD", "selfhosted", "yaml", ".yml"⟩),
    ("tekton", ⟨"Tekton", "kubernetes", "yaml", ".yml"⟩),
    ("spinnaker", ⟨"Spinnaker", "kubernetes", "yaml", ".yml"⟩),
    ("harness", ⟨"Harness", "kubernetes", "yaml", ".yml"⟩),
    ("pulumi-automation", ⟨"Pulumi Automation", "infrastructure", "python", ".py"⟩) ]

/-- `sorted(PLATFORMS.keys())` (check_status.py line 170): the registry keys
in ascending lexicographic order. -/
def sortedPlatformKeys : List String :=
  [ "appveyor", "aws-codepipeline", "azure-pipelines", "bitbucket-pipelines",
    "buildkite", "circleci", "cloudbees", "concourse-ci", "drone-ci",
    "gcp-cloud-build", "gitlab-ci", "gocd", "harness", "jenkins",
    "pulumi-automation", "spinnaker", "teamcity", "tekton", "travis-ci" ]

theorem sortedPlatformKeys_perm :
    sortedPlatformKeys.Perm (PLATFORMS.map (fun e => e.1)) := by decide

/-- Each key of the list is lexicographically strictly below the next. -/
def strictlyAscending : List String → Bool
  | a :: b :: t => (compare a b == Ordering.lt) && strictlyAscending (b :: t)
  | _ => true

theorem sortedPlatformKeys_sorted : strictlyAscending sortedPlatformKeys = true := by
  decide

/-- Count of entries of the files dict with the given status, as computed by
main (`sum(1 for f in ... if f == s)` at lines 178-180 and
`len([f for f, st in ... if st == s])` at lines 198-203). -/
def countStatus (files : List (String × String)) (s : String) : Nat :=
  (files.filter (fun e => e.2 == s)).length

/-- The missing-file paths of one report, in dict order
(`[f for f, s in status["files"].items() if s == "missing"]`, line 185). -/
def missingFiles (r : PlatformStatus) : List String :=
  (r.files.filter (fun e => e.2 == "missing")).map (fun e => e.1)

/-- The aggregate block computed in main (lines 197-211).  The completion
percentage is kept as an exact rational; Python uses float division and
formats it to one decimal place only when printing. -/
structure AggregateSummary where
  total : Nat
  existing : Nat
  empty : Nat
  missing : Nat
  completion : ℚ
deriving DecidableEq, Repr

/-- The spec's `summarize(reports)`, as computed by main lines 197-211.
Main takes one report per registry platform, so `len(PLATFORMS)` equals the
number of reports and `total_files = len(PLATFORMS) * 11` is
`reports.length * 11` (the source comment reads "11 expected files per
platform").  `completion = (existing / total) * 100 if total > 0 else 0`
(line 211). -/
def summarize (reports : List PlatformStatus) : AggregateSummary :=
  { total := reports.length * 11,
    existing := (reports.map (fun r => countStatus r.files "exists")).sum,
    empty := (reports.map (fun r => countStatus r.files "empty")).sum,
    missing := (reports.map (fun r => countStatus r.files "missing")).sum,
    completion :=
      if reports.length * 11 > 0 then
        (((reports.map (fun r => countStatus r.files "exists")).sum : ℚ) /
          ((reports.length * 11 : Nat) : ℚ)) * 100
      else 0 }

/-- The reports built by main's loop (lines 170-172): one
`check_platform_structure` result per registry key, in sorted key order,
written with the pure form of the checker (`check_platform_structure_eq`
shows the checker always returns exactly this). -/
def mainReports (fs : FS) : List PlatformStatus :=
  sortedPlatformKeys.map (checkPure fs)

/-- `c * n` as a string of `n` copies of character `c` (`"=" * 80`,
`"-" * 80`). -/
def repeatChar (c : Char) (n : Nat) : String :=
  String.mk (List.replicate n c)

/-- The missing-files listing of main (lines 184-191): a header when any
file is missing, the first 5 missing paths, and an "... and N more" line
when more than 5 are missing. -/
def renderMissingLines (missing : List String) : List String :=
  if missing.isEmpty then []
  else
    "  Missing files:" ::
      ((missing.take 5).map (fun f => "    - " ++ f) ++
        (if 5 < missing.length then
          ["    ... and " ++ toString (missing.length - 5) ++ " more"]
        else []))

/-- The per-platform block printed by main (lines 174-191).  Main looks the
display name up as `PLATFORMS[platform_key]["name"]`; the loop only visits
registry keys, so the lookup never fails and a default covers the impossible
branch. -/
def renderPlatformBlock (r : PlatformStatus) : List String :=
  let name := ((PLATFORMS.lookup r.platform).map (fun m => m.name)).getD ""
  [ "",
    name ++ " (" ++ r.platform ++ ")",
    repeatChar '-' 80,
    "  Exists:  " ++ toString (countStatus r.files "exists") ++
      " | Empty:  " ++ toString (countStatus r.files "empty") ++
      " | Missing: " ++ toString (countStatus r.files "missing") ]
  ++ renderMissingLines (missingFiles r)

/-- The full text printed by main (lines 164-212), one string per printed
line.  The completion line is rendered from the exact rational; Python's
one-decimal float formatting of it is presentation only. -/
def render (reports : List PlatformStatus) (s : AggregateSummary) : List String :=
  [ repeatChar '=' 80, "CI/CD Platform Content Status Report", repeatChar '=' 80 ]
  ++ (reports.map renderPlatformBlock).flatten
  ++ [ "", repeatChar '=' 80, "Summary", repeatChar '=' 80,
       "Total Expected Files:  " ++ toString s.total,
       "Existing with Content: " ++ toString s.existing,
       "Empty Files:           " ++ toString s.empty,
       "Missing Files:         " ++ toString s.missing,
       "",
       "Completion: " ++ toString s.completion.num ++ "/" ++
         toString s.completion.den ++ " %" ]

theorem statusOf_cases (o : FsOutcome) :
    statusOf o = "exists" ∨ statusOf o = "empty" ∨ statusOf o = "missing" := by
  cases o with
  | ok b sz =>
      rcases Nat.eq_zero_or_pos sz with h | h
      · right; left; simp [statusOf, h]
      · left; simp [statusOf, h]
  | notFound => right; right; rfl
  | permError => right; right; rfl

theorem countStatus_cons (e : String × String) (l : List (String × String)) (s : String) :
    countStatus (e :: l) s = (if e.2 == s then 1 else 0) + countStatus l s := by
  simp only [countStatus, List.filter_cons]
  split <;> simp [Nat.add_comm]

/-- On a files dict whose statuses all lie in the three-status enumeration,
the three per-status counts partition the dict. -/
theorem countStatus_partition (l : List (String × String))
    (h : ∀ e ∈ l, e.2 = "exists" ∨ e.2 = "empty" ∨ e.2 = "missing") :
    countStatus l "exists" + countStatus l "empty" + countStatus l "missing" = l.length := by
  induction l with
  | nil => rfl
  | cons e t ih =>
      have he := h e (List.mem_cons_self e t)
      have iht := ih (fun x hx => h x (List.mem_cons_of_mem e hx))
      rcases he with h1 | h1 | h1 <;>
        simp [countStatus_cons, h1, List.length_cons] <;> omega

/-- Every report of the checker has its three per-status counts summing to
the 11 expected files. -/
theorem countStatus_checkPure (fs : FS) (platform_key : String) :
    countStatus (checkPure fs platform_key).files "exists" +
      countStatus (checkPure fs platform_key).files "empty" +
      countStatus (checkPure fs platform_key).files "missing" = 11 := by
  have h : ∀ e ∈ (checkPure fs platform_key).files,
      e.2 = "exists" ∨ e.2 = "empty" ∨ e.2 = "missing" := by
    intro e he
    simp only [checkPure, List.mem_map] at he
    obtain ⟨fp, _, rfl⟩ := he
    exact statusOf_cases _
  have hp := countStatus_partition _ h
  have hlen : (checkPure fs platform_key).files.length = 11 := by
    simp [checkPure, expected_files]
  omega

theorem lookup_map_self (l : List String) (g : String → String) (fp : String)
    (h : fp ∈ l) :
    (l.map (fun x => (x, g x))).lookup fp = some (g fp) := by
  induction l with
  | nil => cases h
  | cons a t ih =>
      rcases List.mem_cons.mp h with rfl | hmem
      · simp
      · by_cases heq : fp = a
        · subst heq; simp
        · simp only [List.map_cons, List.lookup_cons, beq_false_of_ne heq]
          exact ih hmem

/-- Looking an expected path up in a report gives the status of the resolved
absolute path. -/
theorem lookup_checkPure (fs : FS) (platform_key fp : String)
    (h : fp ∈ expected_files) :
    ((checkPure fs platform_key).files).lookup fp =
      some (statusOf (fs (platformDir platform_key ++ "/" ++ fp))) := by
  simpa [checkPure] using
    lookup_map_self expected_files
      (fun x => statusOf (fs (platformDir platform_key ++ "/" ++ x))) fp h

theorem sums_over_keys (fs : FS) (keys : List String) :
    ((keys.map (checkPure fs)).map (fun r => countStatus r.files "exists")).sum +
      ((keys.map (checkPure fs)).map (fun r => countStatus r.files "empty")).sum +
      ((keys.map (checkPure fs)).map (fun r => countStatus r.files "missing")).sum =
      keys.length * 11 := by
  induction keys with
  | nil => rfl
  | cons k t ih =>
      have h1 := countStatus_checkPure fs k
      simp only [List.map_cons, List.sum_cons, List.length_cons]
      omega

/-- A filesystem holding exactly one regular file of 42 bytes at the jenkins
README.md path (the end-to-end scenario of spec section 8, property 6). -/
def fs1 : FS := fun p =>
  if p = "/workspaces/AI-prompt/pipeline/jenkins/README.md" then .ok true 42
  else .notFound

/-- The completely empty filesystem: no path stats successfully. -/
def fsEmpty : FS := fun _ => .notFound

/-- C1: for every expected relative path, the status assigned by
`check_platform_structure` follows the classification rule: a path that
stats with non-zero byte size is `exists`, one that stats with byte size 0
is `empty`, and a path that does not exist is `missing`. -/
theorem claim_C1 (fs : FS) (platform_key fp : String) (r : PlatformStatus)
    (hmem : fp ∈ expected_files)
    (hr : check_platform_structure fs platform_key = .ok r) :
    (∀ b sz, fs (platformDir platform_key ++ "/" ++ fp) = .ok b sz → 0 < sz →
        r.files.lookup fp = some "exists")
  ∧ (∀ b, fs (platformDir platform_key ++ "/" ++ fp) = .ok b 0 →
        r.files.lookup fp = some "empty")
  ∧ (fs (platformDir platform_key ++ "/" ++ fp) = .notFound →
        r.files.lookup fp = some "missing") := by
  rw [check_platform_structure_eq] at hr
  cases hr
  refine ⟨?_, ?_, ?_⟩
  · intro b sz hstat hpos
    rw [lookup_checkPure fs platform_key fp hmem, hstat]
    simp [statusOf, hpos]
  · intro b hstat
    rw [lookup_checkPure fs platform_key fp hmem, hstat]
    rfl
  · intro hstat
    rw [lookup_checkPure fs platform_key fp hmem, hstat]
    rfl

theorem claim_C1_witness :
    (checkPure fs1 "jenkins").files.lookup "README.md" = some "exists" :=
  (claim_C1 fs1 "jenkins" "README.md" (checkPure fs1 "jenkins")
      (by decide) (by rfl)).1 true 42 (by rfl) (by decide)

/-- C2: for every platform identifier and filesystem, the report has exactly
one status entry per expected path — same length as the expected list, keys
equal to the expected list in order, no duplicate key, and every status one
of exists/empty/missing. -/
theorem claim_C2 (fs : FS) (platform_key : String) (r : PlatformStatus)
    (hr : check_platform_structure fs platform_key = .ok r) :
    r.files.length = expected_files.length
  ∧ r.files.map (fun e => e.1) = expected_files
  ∧ (r.files.map (fun e => e.1)).Nodup
  ∧ r.files.all (fun e => e.2 == "exists" || e.2 == "empty" || e.2 == "missing") = true := by
  rw [check_platform_structure_eq] at hr
  cases hr
  refine ⟨by simp [checkPure], ?_, ?_, ?_⟩
  · simp [checkPure, List.map_map]
    rfl
  · have h : (checkPure fs platform_key).files.map (fun e => e.1) = expected_files := by
      simp [checkPure, List.map_map]
      rfl
    rw [h]
    decide
  · simp only [List.all_eq_true]
    intro e he
    simp only [checkPure, List.mem_map] at he
    obtain ⟨fp, _, rfl⟩ := he
    rcases statusOf_cases (fs (platformDir platform_key ++ "/" ++ fp)) with h | h | h <;>
      simp [h]

theorem claim_C2_witness :
    (checkPure fs1 "jenkins").files.length = expected_files.length
  ∧ (checkPure fs1 "jenkins").files.map (fun e => e.1) = expected_files
  ∧ ((checkPure fs1 "jenkins").files.map (fun e => e.1)).Nodup
  ∧ (checkPure fs1 "jenkins").files.all
      (fun e => e.2 == "exists" || e.2 == "empty" || e.2 == "missing") = true :=
  claim_C2 fs1 "jenkins" (checkPure fs1 "jenkins") (by rfl)

/-- C4: the checker raises nothing when expected paths are absent: on a
filesystem where the platform directory and every expected path under it do
not exist, it returns (rather than throws) a complete report marking every
expected path `missing`. -/
theorem claim_C4 (fs : FS) (platform_key : String)
    (hdir : fs (platformDir platform_key) = .notFound)
    (hall : ∀ fp ∈ expected_files, fs (platformDir platform_key ++ "/" ++ fp) = .notFound) :
    check_platform_structure fs platform_key =
      .ok { platform := platform_key, directory_exists := false,
            files := expected_files.map (fun fp => (fp, "missing")) } := by
  rw [check_platform_structure_eq]
  unfold checkPure
  have h1 : pythonExists fs (platformDir platform_key) = false := by
    unfold pythonExists
    rw [hdir]
  have h2 : expected_files.map
      (fun fp => (fp, statusOf (fs (platformDir platform_key ++ "/" ++ fp)))) =
      expected_files.map (fun fp => (fp, "missing")) :=
    List.map_congr_left (fun fp hfp => by rw [hall fp hfp]; rfl)
  rw [h1, h2]

theorem claim_C4_witness :
    check_platform_structure fsEmpty "jenkins" =
      .ok { platform := "jenkins", directory_exists := false,
            files := expected_files.map (fun fp => (fp, "missing")) } :=
  claim_C4 fsEmpty "jenkins" rfl (fun _ _ => rfl)

/-- C3: over the reports produced for the platform registry, the aggregate
counts partition the total: existing + empty + missing equals the total
expected count, which is the registry size times 11. -/
theorem claim_C3 (fs : FS) :
    (summarize (mainReports fs)).existing + (summarize (mainReports fs)).empty +
        (summarize (mainReports fs)).missing = (summarize (mainReports fs)).total
  ∧ (summarize (mainReports fs)).total = PLATFORMS.length * 11 := by
  constructor
  · simpa [summarize, mainReports] using sums_over_keys fs sortedPlatformKeys
  · simp only [summarize, mainReports, List.length_map]
    rfl

/-- C5: the completion percentage equals existing / total x 100 whenever the
total is non-zero, and on an empty registry (no reports) the total is 0 and
the completion is 0, with no division-by-zero failure. -/
theorem claim_C5 (reports : List PlatformStatus) :
    ((summarize reports).total ≠ 0 →
      (summarize reports).completion =
        ((summarize reports).existing : ℚ) / ((summarize reports).total : ℚ) * 100)
  ∧ (summarize []).total = 0
  ∧ (summarize []).completion = 0 := by
  refine ⟨?_, rfl, rfl⟩
  intro h
  simp only [summarize] at h ⊢
  rw [if_pos (Nat.pos_of_ne_zero h)]

theorem claim_C5_witness :
    (summarize [checkPure fsEmpty "jenkins"]).completion =
      ((summarize [checkPure fsEmpty "jenkins"]).existing : ℚ) /
        ((summarize [checkPure fsEmpty "jenkins"]).total : ℚ) * 100 :=
  (claim_C5 [checkPure fsEmpty "jenkins"]).1 (by decide)

/-- C6: for a non-empty missing list, the rendered listing shows the first 5
missing paths and, exactly when more than 5 are missing, one trailing
"... and N more" line with N the number of missing paths beyond 5; with 5 or
fewer missing, every missing path is listed verbatim and no suffix line is
produced. -/
theorem claim_C6 (missing : List String) (hne : missing ≠ []) :
    renderMissingLines missing =
      "  Missing files:" ::
        (if 5 < missing.length then
          (missing.take 5).map (fun f => "    - " ++ f) ++
            ["    ... and " ++ toString (missing.length - 5) ++ " more"]
        else missing.map (fun f => "    - " ++ f)) := by
  unfold renderMissingLines
  have hne' : missing.isEmpty = false := by
    simpa [List.isEmpty_iff] using hne
  by_cases h : 5 < missing.length
  · simp [hne', h]
  · have hlen : missing.length ≤ 5 := by omega
    simp [hne', h, List.take_of_length_le hlen]

theorem claim_C6_witness :
    renderMissingLines ["a", "b", "c", "d", "e", "f"] =
      "  Missing files:" ::
        (if 5 < (["a", "b", "c", "d", "e", "f"] : List String).length then
          ((["a", "b", "c", "d", "e", "f"] : List String).take 5).map
              (fun f => "    - " ++ f) ++
            ["    ... and " ++
                toString ((["a", "b", "c", "d", "e", "f"] : List String).length - 5) ++
                " more"]
        else (["a", "b", "c", "d", "e", "f"] : List String).map (fun f => "    - " ++ f)) :=
  claim_C6 ["a", "b", "c", "d", "e", "f"] (by decide)

/-- A filesystem holding a directory (not a regular file) of st_size 4096 at
the jenkins README.md path; everything else is absent. -/
def fsDir : FS := fun p =>
  if p = "/workspaces/AI-prompt/pipeline/jenkins/README.md" then .ok false 4096
  else .notFound

/-- C7 counterexample: the claim that `exists` is assigned only to regular
files is false — a directory of st_size 4096 sitting at the expected
README.md path is classified `exists`, because the code tests only
`Path.exists()` and `st_size`, never `is_file()`. -/
theorem claim_C7_counterexample :
    fsDir "/workspaces/AI-prompt/pipeline/jenkins/README.md" = .ok false 4096
  ∧ check_platform_structure fsDir "jenkins" = .ok (checkPure fsDir "jenkins")
  ∧ (checkPure fsDir "jenkins").files.lookup "README.md" = some "exists" :=
  ⟨rfl, check_platform_structure_eq fsDir "jenkins", by rfl⟩

/-- C7 (amended): `exists` is assigned exactly when the resolved path stats
successfully with st_size > 0, whether or not it is a regular file, and
`empty` exactly when it stats successfully with st_size 0. -/
theorem claim_C7 (fs : FS) (platform_key fp : String) (b : Bool) (sz : Nat)
    (hmem : fp ∈ expected_files)
    (hstat : fs (platformDir platform_key ++ "/" ++ fp) = .ok b sz) :
    (checkPure fs platform_key).files.lookup fp =
      some (if sz > 0 then "exists" else "empty") := by
  rw [lookup_checkPure fs platform_key fp hmem, hstat]
  rfl

theorem claim_C7_witness :
    (checkPure fsDir "jenkins").files.lookup "README.md" =
      some (if 4096 > 0 then "exists" else "empty") :=
  claim_C7 fsDir "jenkins" "README.md" false 4096 (by decide) rfl

/-- C8: the checker is read-only and deterministic — its result is a
function of the stat outcomes of the paths it queries (the platform
directory and the 11 resolved expected paths), so two runs against
filesystems agreeing there (in particular, two runs against one unchanged
filesystem) yield identical reports, and `render` applied twice to the same
reports and summary yields identical text. -/
theorem claim_C8 (fs fsB : FS) (platform_key : String)
    (reports : List PlatformStatus) (s : AggregateSummary)
    (hdir : fs (platformDir platform_key) = fsB (platformDir platform_key))
    (hpaths : ∀ fp ∈ expected_files,
        fs (platformDir platform_key ++ "/" ++ fp) =
          fsB (platformDir platform_key ++ "/" ++ fp)) :
    check_platform_structure fs platform_key = check_platform_structure fsB platform_key
  ∧ check_platform_structure fs platform_key = check_platform_structure fs platform_key
  ∧ render reports s = render reports s := by
  refine ⟨?_, rfl, rfl⟩
  rw [check_platform_structure_eq, check_platform_structure_eq]
  unfold checkPure
  have h1 : pythonExists fs (platformDir platform_key) =
      pythonExists fsB (platformDir platform_key) := by
    unfold pythonExists
    rw [hdir]
  have h2 : expected_files.map
      (fun fp => (fp, statusOf (fs (platformDir platform_key ++ "/" ++ fp)))) =
      expected_files.map
        (fun fp => (fp, statusOf (fsB (platformDir platform_key ++ "/" ++ fp)))) :=
    List.map_congr_left (fun fp hfp => by rw [hpaths fp hfp])
  rw [h1, h2]

theorem claim_C8_witness :
    check_platform_structure fsEmpty "jenkins" = check_platform_structure fsEmpty "jenkins"
  ∧ check_platform_structure fsEmpty "jenkins" = check_platform_structure fsEmpty "jenkins"
  ∧ render [] (summarize []) = render [] (summarize []) :=
  claim_C8 fsEmpty fsEmpty "jenkins" [] (summarize []) rfl (fun _ _ => rfl)

/-- A filesystem on which stating the jenkins README.md path gives a
permission error; everything else is absent. -/
def fsPerm : FS := fun p =>
  if p = "/workspaces/AI-prompt/pipeline/jenkins/README.md" then .permError
  else .notFound

/-- C9 counterexample: the claim that a permission error while stating a
path is propagated as a distinct IOFailure is false — `Path.exists()`
swallows the `OSError`, so the checker classifies the path `missing` and
returns an ordinary complete report instead of failing. -/
theorem claim_C9_counterexample :
    fsPerm "/workspaces/AI-prompt/pipeline/jenkins/README.md" = .permError
  ∧ check_platform_structure fsPerm "jenkins" =
      .ok { platform := "jenkins", directory_exists := false,
            files := expected_files.map (fun fp => (fp, "missing")) } :=
  ⟨rfl, by rfl⟩

/-- C9 (amended): a permission error while stating an expected path is not
propagated: `Path.exists()` returns False on it, the path is classified
`missing`, and the checker still returns a complete report — it has no
failure mode. -/
theorem claim_C9 (fs : FS) (platform_key fp : String)
    (hmem : fp ∈ expected_files)
    (hperm : fs (platformDir platform_key ++ "/" ++ fp) = .permError) :
    check_platform_structure fs platform_key = .ok (checkPure fs platform_key)
  ∧ (checkPure fs platform_key).files.lookup fp = some "missing" := by
  refine ⟨check_platform_structure_eq _ _, ?_⟩
  rw [lookup_checkPure fs platform_key fp hmem, hperm]
  rfl

theorem claim_C9_witness :
    check_platform_structure fsPerm "jenkins" = .ok (checkPure fsPerm "jenkins")
  ∧ (checkPure fsPerm "jenkins").files.lookup "README.md" = some "missing" :=
  claim_C9 fsPerm "jenkins" "README.md" (by decide) rfl

/-- C10: the checker takes no root or expected-path parameter — for every
filesystem and platform key it resolves the hardcoded 11-path list under the
fixed absolute directory /workspaces/AI-prompt/pipeline/<key>, records the
`directory_exists` boolean as exactly the existence of that directory, and
none of the three status counts depends on that boolean. -/
theorem claim_C10 (fs : FS) (platform_key : String) (b : Bool) :
    check_platform_structure fs platform_key = .ok (checkPure fs platform_key)
  ∧ (checkPure fs platform_key).directory_exists =
      pythonExists fs ("/workspaces/AI-prompt/pipeline/" ++ platform_key)
  ∧ (checkPure fs platform_key).files =
      expected_files.map (fun fp =>
        (fp, statusOf (fs ("/workspaces/AI-prompt/pipeline/" ++ platform_key ++ "/" ++ fp))))
  ∧ expected_files.length = 11
  ∧ countStatus { checkPure fs platform_key with directory_exists := b }.files "exists" =
      countStatus (checkPure fs platform_key).files "exists"
  ∧ countStatus { checkPure fs platform_key with directory_exists := b }.files "empty" =
      countStatus (checkPure fs platform_key).files "empty"
  ∧ countStatus { checkPure fs platform_key with directory_exists := b }.files "missing" =
      countStatus (checkPure fs platform_key).files "missing" :=
  ⟨check_platform_structure_eq fs platform_key, rfl, rfl, rfl, rfl, rfl, rfl⟩
